import Mathlib

/-!
Verification of the position-lifecycle core of the kiwoom_stock_telegram
trading system.

The Python source is shallowly embedded: every definition below is a direct
translation of the corresponding function in the repository, with machine
integers as `Int`, Python floats modelled exactly as `ℚ`, fallible broker
calls as explicit result values, and side effects (broker orders, flag
writes) reified as an event trace returned alongside the new state.

Source files embedded here:
  * kiwoom_order.py        : get_tick_size, calculate_sell_price,
                             KiwoomOrderAPI.calculate_order_quantity
  * order_executor.py      : OrderExecutor.calculate_sell_price,
                             OrderExecutor.wait_for_buy_execution (per-poll
                             classification step)
  * trading_system_base.py : on_price_update (lazy verification, periodic
                             balance refresh, exit decision), execute_auto_sell,
                             execute_stop_loss, execute_daily_force_sell,
                             handle_outstanding_order, check_today_trading_done,
                             record_today_trading
-/

namespace KiwoomTrading

/-! ## kiwoom_order.py : tick sizes and prices -/

/-- `get_tick_size(price)` from kiwoom_order.py: the exchange tick size as a
step function of the price band. -/
def get_tick_size (price : Int) : Int :=
  if price < 1000 then 1
  else if price < 5000 then 5
  else if price < 10000 then 10
  else if price < 50000 then 50
  else if price < 100000 then 100
  else if price < 500000 then 500
  else 1000

/-- Module-level `calculate_sell_price(current_price, ...)` from
kiwoom_order.py: one tick below the current price.  The `buy_price` and
`profit_rate` arguments of the Python function are unused there. -/
def calculate_sell_price (current_price : Int) : Int :=
  current_price - get_tick_size current_price

/-- Python `int(q)` on a real value: truncation toward zero. -/
def pyTrunc (q : ℚ) : Int :=
  if 0 ≤ q then ⌊q⌋ else ⌈q⌉

/-- `OrderExecutor.calculate_sell_price(buy_price, profit_rate)` from
order_executor.py: compute the target price `int(buy_price * (1 + profit_rate))`
and return it lowered by one tick via the module-level function. -/
def oe_calculate_sell_price (buy_price : Int) (profit_rate : ℚ) : Int :=
  let target_price := pyTrunc ((buy_price : ℚ) * (1 + profit_rate))
  calculate_sell_price target_price

/-- `KiwoomOrderAPI.calculate_order_quantity(buy_price, max_investment)` from
kiwoom_order.py: 0 on a non-positive price, otherwise Python floor division
`max_investment // buy_price`. -/
def calculate_order_quantity (buy_price : Int) (max_investment : Int) : Int :=
  if buy_price ≤ 0 then 0
  else Int.fdiv max_investment buy_price

/-! ## Broker responses (wire shapes consumed by the core) -/

/-- One entry of the holdings list returned by
`KiwoomOrderAPI.get_account_balance` (fields `stk_cd`, `buy_uv`, `rmnd_qty`
after the `int(... or 0)` conversions done at each use site). -/
structure Holding where
  stk_cd : String
  buy_uv : Int
  rmnd_qty : Int
  deriving Repr, DecidableEq

/-- Result of `get_account_balance`: a success flag and the holdings list. -/
structure BalanceResult where
  success : Bool
  holdings : List Holding
  deriving Repr, DecidableEq

/-- One entry of the outstanding-orders list returned by
`KiwoomOrderAPI.get_outstanding_orders` (fields `ord_no`, `rmndr_qty`). -/
structure OutstandingOrder where
  ord_no : String
  rmndr_qty : Int
  deriving Repr, DecidableEq

/-- Result of `get_outstanding_orders`. -/
structure OutstandingResult where
  success : Bool
  orders : List OutstandingOrder
  deriving Repr, DecidableEq

/-- The Python `for holding in holdings: if holding.get("stk_cd") == code: ...
break` pattern: first holding whose `stk_cd` matches. -/
def findHolding (stock_code : String) (hs : List Holding) : Option Holding :=
  hs.find? (fun h => h.stk_cd == stock_code)

/-! ## order_executor.py : buy-fill classification (wait_for_buy_execution) -/

/-- Step 1 of each poll iteration of `OrderExecutor.wait_for_buy_execution`:
look the order up in the outstanding list; when the query fails or the order
is absent, the remaining quantity is treated as 0. -/
def pollRemainingQty (order_no : String) (outst : OutstandingResult) : Int :=
  if outst.success then
    match outst.orders.find? (fun o => o.ord_no == order_no) with
    | some o => o.rmndr_qty
    | none => 0
  else 0

/-- Step 2 of each poll iteration: actual held quantity and average buy price
for the symbol, 0 when the balance query fails or the symbol is absent. -/
def pollHeld (stock_code : String) (bal : BalanceResult) : Int × Int :=
  if bal.success then
    match findHolding stock_code bal.holdings with
    | some h => (h.rmnd_qty, h.buy_uv)
    | none => (0, 0)
  else (0, 0)

/-- Classification produced by one poll iteration of
`wait_for_buy_execution` (the `status` strings of the source). -/
inductive BuyPollOutcome where
  /-- `'FULLY_EXECUTED'`, carrying `executed_qty` and `avg_buy_price`. -/
  | fullyExecuted (executed_qty : Int) (avg_buy_price : Int)
  /-- `'PARTIALLY_EXECUTED'`, carrying `executed_qty`, `remaining_qty`,
  `avg_buy_price`, and the quantity for which a cancel was issued. -/
  | partlyExecuted (executed_qty remaining_qty avg_buy_price cancel_qty : Int)
  /-- Neither branch fired: the loop keeps polling. -/
  | keepPolling
  deriving Repr, DecidableEq

/-- Step 3 of each poll iteration of `wait_for_buy_execution`: the branch on
`rmndr_qty` and `actual_qty`.  `cancel_success` is the outcome of the cancel
issued in the partial branch; the source logs it and proceeds regardless, so
it does not influence the classification. -/
def classifyBuyPoll (order_no stock_code : String) (order_qty : Int)
    (outst : OutstandingResult) (bal : BalanceResult)
    (cancel_success : Bool) : BuyPollOutcome :=
  let rmndr_qty := pollRemainingQty order_no outst
  let actual_qty := (pollHeld stock_code bal).1
  let avg_buy_price := (pollHeld stock_code bal).2
  if rmndr_qty = 0 ∧ order_qty ≤ actual_qty then
    .fullyExecuted actual_qty avg_buy_price
  else if 0 < actual_qty ∧ 0 < rmndr_qty then
    let _ := cancel_success
    .partlyExecuted actual_qty rmndr_qty avg_buy_price rmndr_qty
  else .keepPolling

/-! ## trading_system_base.py : daily trade lock -/

/-- Shape of the JSON object written to `daily_trading_lock.json` by
`record_today_trading`. -/
structure LockData where
  last_trading_date : String
  stock_code : String
  stock_name : String
  buy_price : Int
  quantity : Int
  trading_time : Option String
  deriving Repr, DecidableEq

/-- `record_today_trading(...)` from trading_system_base.py, with the wall
clock's calendar day passed explicitly: builds the lock record that overwrites
the lock file (the `trading_time` field is present exactly when `buy_time`
was passed). -/
def record_today_trading (today : String) (stock_code stock_name : String)
    (buy_price quantity : Int) (buy_time : Option String) : LockData :=
  { last_trading_date := today
    stock_code := stock_code
    stock_name := stock_name
    buy_price := buy_price
    quantity := quantity
    trading_time := buy_time }

/-- `check_today_trading_done()` from trading_system_base.py, with the lock
file content and today's date passed explicitly: `false` when the file is
absent (or unreadable, folded into `none`), otherwise true exactly when the
stored `last_trading_date` equals today. -/
def check_today_trading_done (today : String) (lock_file : Option LockData) : Bool :=
  match lock_file with
  | none => false
  | some lock_data => lock_data.last_trading_date == today

/-! ## trading_system_base.py : trading state -/

/-- The configuration fields of `TradingConfig` consumed by `on_price_update`
and the sell handlers.  The forced-liquidation time-of-day
(`daily_force_sell_time`, a `"HH:MM"` string in the source) is held as
minutes since midnight. -/
structure Config where
  enable_lazy_verification : Bool
  balance_check_interval : Int
  enable_daily_force_sell : Bool
  daily_force_sell_tod_min : Nat
  enable_stop_loss : Bool
  stop_loss_rate : ℚ
  stop_loss_delay_minutes : Int
  cancel_outstanding_on_failure : Bool
  deriving Repr, DecidableEq

/-- The `self.buy_info` dict of `TradingSystemBase`.  `buy_time` is held as a
timestamp in seconds (`ℚ`, Python datetimes subtract to seconds). -/
structure BuyInfo where
  stock_code : String
  stock_name : String
  buy_price : Int
  quantity : Int
  buy_time : Option ℚ
  target_profit_rate : ℚ
  is_verified : Bool
  deriving Repr, DecidableEq

/-- The mutable per-position fields of `TradingSystemBase` touched by the
price-tick path. -/
structure TradingState where
  buy_info : BuyInfo
  sell_executed : Bool
  sell_order_no : Option String
  last_balance_check : Option ℚ
  deriving Repr, DecidableEq

/-- Observable side effects of the tick path, in program order: flag writes
and broker calls. -/
inductive TradeEvent where
  /-- assignment to `self.sell_executed` -/
  | setFlag (b : Bool)
  /-- `get_account_balance()` call -/
  | balanceQuery
  /-- `get_outstanding_orders()` call -/
  | outstandingQuery
  /-- limit sell order (`place_limit_sell_order` / `execute_limit_sell`) -/
  | sellLimit (quantity price : Int)
  /-- market sell order (`place_market_sell_order` / `execute_market_sell`) -/
  | sellMarket (quantity : Int)
  /-- `cancel_order` call -/
  | cancelOrder (order_no : String) (quantity : Int)
  deriving Repr, DecidableEq

/-- Whether an event places a sell order at the broker. -/
def TradeEvent.isSellOrder : TradeEvent → Bool
  | .sellLimit _ _ => true
  | .sellMarket _ => true
  | _ => false

/-- `profit_rate = (current_price - buy_price) / buy_price`, exact. -/
def profitRate (current_price buy_price : Int) : ℚ :=
  ((current_price : ℚ) - (buy_price : ℚ)) / (buy_price : ℚ)

/-- `is_force_sell_time()`: the wall clock formatted as `"HH:MM"` is at or
past the configured liquidation time (time-of-day comparison, in minutes). -/
def is_force_sell_time (now_tod_min : Nat) (force_tod_min : Nat) : Bool :=
  force_tod_min ≤ now_tod_min

/-- The stop-loss delay gate of `on_price_update` (lines 630-636): with a
recorded buy time and a positive configured delay, suppress the stop-loss
while the elapsed minutes are below the delay. -/
def stopLossDelayActive (cfg : Config) (bi : BuyInfo) (now_sec : ℚ) : Bool :=
  match bi.buy_time with
  | some t =>
      0 < cfg.stop_loss_delay_minutes ∧
        (now_sec - t) / 60 < (cfg.stop_loss_delay_minutes : ℚ)
  | none => false

/-- The exit action chosen by one tick. -/
inductive ExitAction where
  | none
  | forceLiquidate
  | stopLoss
  | takeProfit
  deriving Repr, DecidableEq

/-- The exit-decision cascade of `on_price_update`
(trading_system_base.py lines 622-644): forced liquidation, then stop-loss
(with the delay gate returning without action), then take-profit, each
guarded by `not self.sell_executed` and returning at the first hit. -/
def evaluateExit (cfg : Config) (st : TradingState) (current_price : Int)
    (now_sec : ℚ) (now_tod_min : Nat) : ExitAction :=
  let pr := profitRate current_price st.buy_info.buy_price
  if cfg.enable_daily_force_sell
      && is_force_sell_time now_tod_min cfg.daily_force_sell_tod_min
      && !st.sell_executed then
    .forceLiquidate
  else if cfg.enable_stop_loss && decide (pr ≤ cfg.stop_loss_rate)
      && !st.sell_executed then
    if stopLossDelayActive cfg st.buy_info now_sec then .none else .stopLoss
  else if decide (st.buy_info.target_profit_rate ≤ pr) && !st.sell_executed then
    .takeProfit
  else .none

/-! ## trading_system_base.py : sell handlers -/

/-- Result dict of a sell-order placement as consumed by the handlers. -/
structure SellCallResult where
  success : Bool
  order_no : String
  deriving Repr, DecidableEq

/-- Broker-side outcomes consumed by one invocation of a sell handler:
`sell_result = none` models the order call raising, `is_executed` is the
outcome of `wait_for_sell_execution`, and `cancel_success` the outcome of the
cancel inside `handle_outstanding_order`. -/
structure SellEnv where
  sell_result : Option SellCallResult
  is_executed : Bool
  cancel_success : Bool
  deriving Repr, DecidableEq

/-- Broker-side outcomes consumed by `execute_daily_force_sell`: the
pre-liquidation outstanding-orders query and the market-sell result. -/
structure ForceEnv where
  outstanding : OutstandingResult
  sell_result : Option SellCallResult
  deriving Repr, DecidableEq

/-- `handle_outstanding_order` from trading_system_base.py: under the
cancel-on-failure policy, cancel the dangling sell and clear the flag only
when the cancel succeeds; otherwise keep the order and the flag. -/
def handle_outstanding_order (cfg : Config) (st : TradingState)
    (order_no : String) (quantity : Int) (cancel_success : Bool) :
    TradingState × List TradeEvent :=
  if cfg.cancel_outstanding_on_failure then
    if cancel_success then
      ({ st with sell_executed := false, sell_order_no := none },
        [.cancelOrder order_no quantity, .setFlag false])
    else (st, [.cancelOrder order_no quantity])
  else (st, [])

/-- `execute_auto_sell` (take-profit) from trading_system_base.py: guard on
`sell_executed`, set the flag, abort on non-positive cached quantity, place a
limit sell at `OrderExecutor.calculate_sell_price(buy_price, profit_rate)`,
then roll the flag back on an exception or an unsuccessful result, and on an
unconfirmed fill defer to `handle_outstanding_order`. -/
def execute_auto_sell (cfg : Config) (st : TradingState) (profit_rate : ℚ)
    (env : SellEnv) : TradingState × List TradeEvent :=
  if st.sell_executed then (st, [])
  else if st.buy_info.quantity ≤ 0 then
    ({ st with sell_executed := true }, [.setFlag true])
  else
    match env.sell_result with
    | none =>
        ({ st with sell_executed := false },
          [.setFlag true,
            .sellLimit st.buy_info.quantity
              (oe_calculate_sell_price st.buy_info.buy_price profit_rate),
            .setFlag false])
    | some r =>
        if r.success then
          if env.is_executed then
            ({ st with sell_executed := true, sell_order_no := some r.order_no },
              [.setFlag true,
                .sellLimit st.buy_info.quantity
                  (oe_calculate_sell_price st.buy_info.buy_price profit_rate)])
          else
            ((handle_outstanding_order cfg
                { st with sell_executed := true, sell_order_no := some r.order_no }
                r.order_no st.buy_info.quantity env.cancel_success).1,
              .setFlag true ::
                .sellLimit st.buy_info.quantity
                  (oe_calculate_sell_price st.buy_info.buy_price profit_rate) ::
                (handle_outstanding_order cfg
                  { st with sell_executed := true, sell_order_no := some r.order_no }
                  r.order_no st.buy_info.quantity env.cancel_success).2)
        else
          ({ st with sell_executed := false },
            [.setFlag true,
              .sellLimit st.buy_info.quantity
                (oe_calculate_sell_price st.buy_info.buy_price profit_rate),
              .setFlag false])

/-- `execute_stop_loss` from trading_system_base.py: guard on
`sell_executed`, set the flag, abort on non-positive cached quantity, place a
market sell.  Neither the failure branch nor the exception handler resets
`sell_executed`. -/
def execute_stop_loss (st : TradingState) (env : SellEnv) :
    TradingState × List TradeEvent :=
  if st.sell_executed then (st, [])
  else if st.buy_info.quantity ≤ 0 then
    ({ st with sell_executed := true }, [.setFlag true])
  else
    match env.sell_result with
    | none =>
        ({ st with sell_executed := true },
          [.setFlag true, .sellMarket st.buy_info.quantity])
    | some _ =>
        ({ st with sell_executed := true },
          [.setFlag true, .sellMarket st.buy_info.quantity])

/-- `execute_daily_force_sell` from trading_system_base.py: guard on
`sell_executed`, set the flag, cancel every outstanding order, then place a
market sell for the cached quantity (no quantity guard).  Neither the failure
branch nor the exception handler resets `sell_executed`. -/
def execute_daily_force_sell (st : TradingState) (env : ForceEnv) :
    TradingState × List TradeEvent :=
  if st.sell_executed then (st, [])
  else
    ({ st with sell_executed := true },
      .setFlag true :: .outstandingQuery ::
        (if env.outstanding.success then
          env.outstanding.orders.map
            (fun o => TradeEvent.cancelOrder o.ord_no o.rmndr_qty)
        else [])
      ++ [.sellMarket st.buy_info.quantity])

/-! ## trading_system_base.py : on_price_update -/

/-- Shorthand for flipping `is_verified` while keeping the cached values. -/
def setVerified (st : TradingState) : TradingState :=
  { st with buy_info := { st.buy_info with is_verified := true } }

/-- The lazy-verification block of `on_price_update`
(trading_system_base.py lines 497-546): on an unverified position, query the
account balance once (`balance = none` models the call raising); overwrite
`buy_price`/`quantity` and set `is_verified` when the symbol is found with
positive values; set `is_verified` (keeping the estimates) when the query
raises, fails, or the symbol is absent; when the symbol is found with a
non-positive price or quantity the loop breaks without setting anything. -/
def lazyVerifyStep (cfg : Config) (st : TradingState) (stock_code : String)
    (balance : Option BalanceResult) : TradingState × List TradeEvent :=
  if cfg.enable_lazy_verification && !st.buy_info.is_verified then
    match balance with
    | none => (setVerified st, [.balanceQuery])
    | some b =>
        if b.success then
          match findHolding stock_code b.holdings with
          | some h =>
              if 0 < h.buy_uv ∧ 0 < h.rmnd_qty then
                ({ st with buy_info := { st.buy_info with
                    buy_price := h.buy_uv, quantity := h.rmnd_qty,
                    is_verified := true } }, [.balanceQuery])
              else (st, [.balanceQuery])
          | none => (setVerified st, [.balanceQuery])
        else (setVerified st, [.balanceQuery])
  else (st, [])

/-- The periodic balance-refresh block of `on_price_update`
(trading_system_base.py lines 552-607): when enabled and the interval has
elapsed (or no check was done yet), re-query the balance; on a change of the
broker-reported average price (positive) or quantity for the symbol,
overwrite both cached fields; `_last_balance_check` is stamped on success,
failure and exception alike. -/
def shouldCheckBalance (interval : Int) (last_check : Option ℚ)
    (now_sec : ℚ) : Bool :=
  match last_check with
  | none => true
  | some t => (interval : ℚ) ≤ now_sec - t

/-- The state rewrite done by a successful periodic balance query: overwrite
the cached price and quantity when the symbol is found with a positive
average price and either field changed. -/
def applyRefresh (st : TradingState) (stock_code : String)
    (balance : Option BalanceResult) : TradingState :=
  match balance with
  | none => st
  | some b =>
      if b.success then
        match findHolding stock_code b.holdings with
        | some h =>
            if 0 < h.buy_uv ∧
                (h.buy_uv ≠ st.buy_info.buy_price ∨
                  h.rmnd_qty ≠ st.buy_info.quantity) then
              { st with buy_info := { st.buy_info with
                  buy_price := h.buy_uv, quantity := h.rmnd_qty } }
            else st
        | none => st
      else st

def balanceRefreshStep (cfg : Config) (st : TradingState) (stock_code : String)
    (now_sec : ℚ) (balance : Option BalanceResult) :
    TradingState × List TradeEvent :=
  if 0 < cfg.balance_check_interval then
    if shouldCheckBalance cfg.balance_check_interval st.last_balance_check now_sec then
      ({ applyRefresh st stock_code balance with last_balance_check := some now_sec },
        [.balanceQuery])
    else (st, [])
  else (st, [])

/-- The broker-side inputs consumed by one tick of `on_price_update`. -/
structure TickEnv where
  lazy_balance : Option BalanceResult
  refresh_balance : Option BalanceResult
  sell_env : SellEnv
  force_env : ForceEnv
  deriving Repr, DecidableEq

/-- `on_price_update(stock_code, current_price, data)` from
trading_system_base.py: drop non-positive prices, run lazy verification, drop
ticks with a non-positive cached buy price, run the periodic balance refresh,
then evaluate the exit cascade on the (possibly refreshed) state and dispatch
to the matching handler. -/
def on_price_update (cfg : Config) (st : TradingState) (stock_code : String)
    (current_price : Int) (now_sec : ℚ) (now_tod_min : Nat) (env : TickEnv) :
    TradingState × List TradeEvent :=
  if current_price ≤ 0 then (st, [])
  else
    let s1 := lazyVerifyStep cfg st stock_code env.lazy_balance
    if s1.1.buy_info.buy_price ≤ 0 then s1
    else
      let s2 := balanceRefreshStep cfg s1.1 stock_code now_sec env.refresh_balance
      let pre := s1.2 ++ s2.2
      match evaluateExit cfg s2.1 current_price now_sec now_tod_min with
      | .forceLiquidate =>
          let h := execute_daily_force_sell s2.1 env.force_env
          (h.1, pre ++ h.2)
      | .stopLoss =>
          let h := execute_stop_loss s2.1 env.sell_env
          (h.1, pre ++ h.2)
      | .takeProfit =>
          let h := execute_auto_sell cfg s2.1
            (profitRate current_price s2.1.buy_info.buy_price) env.sell_env
          (h.1, pre ++ h.2)
      | .none => (s2.1, pre)

/-- All inputs of one tick, for iterating the tick path. -/
structure TickIn where
  stock_code : String
  current_price : Int
  now_sec : ℚ
  now_tod_min : Nat
  env : TickEnv
  deriving Repr, DecidableEq

/-- Iterated ticks: run `on_price_update` over a list of tick inputs in
arrival order, collecting all emitted events. -/
def runTicks (cfg : Config) (st : TradingState) :
    List TickIn → TradingState × List TradeEvent
  | [] => (st, [])
  | tk :: rest =>
      let s := on_price_update cfg st tk.stock_code tk.current_price
        tk.now_sec tk.now_tod_min tk.env
      let r := runTicks cfg s.1 rest
      (r.1, s.2 ++ r.2)

/-! ## Helper lemmas -/

theorem lazyVerifyStep_sell_executed (cfg : Config) (st : TradingState)
    (sc : String) (bal : Option BalanceResult) :
    (lazyVerifyStep cfg st sc bal).1.sell_executed = st.sell_executed := by
  unfold lazyVerifyStep setVerified
  repeat' split
  all_goals rfl

theorem lazyVerifyStep_events (cfg : Config) (st : TradingState)
    (sc : String) (bal : Option BalanceResult) :
    ∀ e ∈ (lazyVerifyStep cfg st sc bal).2, e = TradeEvent.balanceQuery := by
  unfold lazyVerifyStep setVerified
  repeat' split
  all_goals simp

theorem lazyVerifyStep_verified_mono (cfg : Config) (st : TradingState)
    (sc : String) (bal : Option BalanceResult)
    (h : st.buy_info.is_verified = true) :
    (lazyVerifyStep cfg st sc bal).1.buy_info.is_verified = true := by
  unfold lazyVerifyStep
  simp [h]

theorem applyRefresh_sell_executed (st : TradingState) (sc : String)
    (bal : Option BalanceResult) :
    (applyRefresh st sc bal).sell_executed = st.sell_executed := by
  unfold applyRefresh
  repeat' split
  all_goals rfl

theorem applyRefresh_verified (st : TradingState) (sc : String)
    (bal : Option BalanceResult) :
    (applyRefresh st sc bal).buy_info.is_verified = st.buy_info.is_verified := by
  unfold applyRefresh
  repeat' split
  all_goals rfl

theorem balanceRefreshStep_sell_executed (cfg : Config) (st : TradingState)
    (sc : String) (ns : ℚ) (bal : Option BalanceResult) :
    (balanceRefreshStep cfg st sc ns bal).1.sell_executed = st.sell_executed := by
  unfold balanceRefreshStep
  repeat' split
  all_goals simp [applyRefresh_sell_executed]

theorem balanceRefreshStep_events (cfg : Config) (st : TradingState)
    (sc : String) (ns : ℚ) (bal : Option BalanceResult) :
    ∀ e ∈ (balanceRefreshStep cfg st sc ns bal).2, e = TradeEvent.balanceQuery := by
  unfold balanceRefreshStep
  repeat' split
  all_goals simp

theorem balanceRefreshStep_verified (cfg : Config) (st : TradingState)
    (sc : String) (ns : ℚ) (bal : Option BalanceResult) :
    (balanceRefreshStep cfg st sc ns bal).1.buy_info.is_verified
      = st.buy_info.is_verified := by
  unfold balanceRefreshStep
  repeat' split
  all_goals simp [applyRefresh_verified]

theorem handle_outstanding_order_buy_info (cfg : Config) (st : TradingState)
    (ono : String) (q : Int) (cs : Bool) :
    (handle_outstanding_order cfg st ono q cs).1.buy_info = st.buy_info := by
  unfold handle_outstanding_order
  repeat' split
  all_goals rfl

theorem execute_auto_sell_buy_info (cfg : Config) (st : TradingState)
    (pr : ℚ) (env : SellEnv) :
    (execute_auto_sell cfg st pr env).1.buy_info = st.buy_info := by
  unfold execute_auto_sell
  repeat' split
  all_goals first
    | rfl
    | exact handle_outstanding_order_buy_info ..

theorem execute_stop_loss_buy_info (st : TradingState) (env : SellEnv) :
    (execute_stop_loss st env).1.buy_info = st.buy_info := by
  unfold execute_stop_loss
  repeat' split
  all_goals rfl

theorem execute_daily_force_sell_buy_info (st : TradingState) (env : ForceEnv) :
    (execute_daily_force_sell st env).1.buy_info = st.buy_info := by
  unfold execute_daily_force_sell
  repeat' split
  all_goals rfl

theorem evaluateExit_locked (cfg : Config) (st : TradingState)
    (cp : Int) (ns : ℚ) (ntm : Nat) (h : st.sell_executed = true) :
    evaluateExit cfg st cp ns ntm = .none := by
  unfold evaluateExit
  simp [h]

/-- Once `sell_executed` is set, a tick can only query the balance: the flag
stays set and no sell order is emitted. -/
theorem on_price_update_locked (cfg : Config) (st : TradingState) (sc : String)
    (cp : Int) (ns : ℚ) (ntm : Nat) (env : TickEnv)
    (h : st.sell_executed = true) :
    (on_price_update cfg st sc cp ns ntm env).1.sell_executed = true ∧
    ∀ e ∈ (on_price_update cfg st sc cp ns ntm env).2, e.isSellOrder = false := by
  have h1 : (lazyVerifyStep cfg st sc env.lazy_balance).1.sell_executed = true := by
    rw [lazyVerifyStep_sell_executed]; exact h
  have h2 : (balanceRefreshStep cfg (lazyVerifyStep cfg st sc env.lazy_balance).1
      sc ns env.refresh_balance).1.sell_executed = true := by
    rw [balanceRefreshStep_sell_executed]; exact h1
  have hev1 : ∀ e ∈ (lazyVerifyStep cfg st sc env.lazy_balance).2,
      TradeEvent.isSellOrder e = false := by
    intro e he
    have := lazyVerifyStep_events cfg st sc env.lazy_balance e he
    rw [this]; rfl
  have hev2 : ∀ e ∈ (balanceRefreshStep cfg
      (lazyVerifyStep cfg st sc env.lazy_balance).1 sc ns env.refresh_balance).2,
      TradeEvent.isSellOrder e = false := by
    intro e he
    have := balanceRefreshStep_events cfg
      (lazyVerifyStep cfg st sc env.lazy_balance).1 sc ns env.refresh_balance e he
    rw [this]; rfl
  unfold on_price_update
  split
  · exact ⟨h, by simp⟩
  · dsimp only
    rw [evaluateExit_locked _ _ _ _ _ h2]
    split
    · exact ⟨h1, hev1⟩
    · refine ⟨h2, ?_⟩
      intro e he
      rcases List.mem_append.mp he with h' | h'
      · exact hev1 e h'
      · exact hev2 e h'

/-- Iterating ticks from a state with the flag set keeps it set and never
emits a sell order. -/
theorem runTicks_locked (cfg : Config) (ticks : List TickIn) :
    ∀ st : TradingState, st.sell_executed = true →
      (runTicks cfg st ticks).1.sell_executed = true ∧
      ∀ e ∈ (runTicks cfg st ticks).2, e.isSellOrder = false := by
  induction ticks with
  | nil => intro st h; exact ⟨h, by simp [runTicks]⟩
  | cons tk rest ih =>
      intro st h
      have hstep := on_price_update_locked cfg st tk.stock_code tk.current_price
        tk.now_sec tk.now_tod_min tk.env h
      have hrest := ih (on_price_update cfg st tk.stock_code tk.current_price
        tk.now_sec tk.now_tod_min tk.env).1 hstep.1
      refine ⟨hrest.1, ?_⟩
      intro e he
      simp only [runTicks] at he ⊢
      rcases List.mem_append.mp he with h' | h'
      · exact hstep.2 e h'
      · exact hrest.2 e h'

/-- With `buy_price > 0` and the exact tick profit rate, the target price
recomputed by `OrderExecutor.calculate_sell_price` is the current price, so
the placed sell price is one tick below the current price. -/
theorem oe_sell_price_eq_current (cp bp : Int) (h : 0 < bp) :
    oe_calculate_sell_price bp (profitRate cp bp) = calculate_sell_price cp := by
  unfold oe_calculate_sell_price profitRate pyTrunc
  have hb : (bp : ℚ) ≠ 0 := by exact_mod_cast h.ne'
  have hcast : (bp : ℚ) * (1 + (((cp : Int) : ℚ) - ((bp : Int) : ℚ)) / ((bp : Int) : ℚ))
      = ((cp : Int) : ℚ) := by
    field_simp
  simp [hcast, Int.floor_intCast, Int.ceil_intCast]

/-! ## Claim theorems -/

/-- C4: for every positive reference price `p` and positive capital `c`,
`calculate_order_quantity` returns `c // p` (floor division, no safety
margin), so `quantity * p ≤ c`; and for `p ≤ 0` it returns 0 (a value, not an
exception — the embedded function is total). -/
theorem quantity_sizing (p c : Int) :
    (0 < p → 0 < c →
      calculate_order_quantity p c = Int.fdiv c p ∧
        calculate_order_quantity p c * p ≤ c) ∧
    (p ≤ 0 → calculate_order_quantity p c = 0) := by
  constructor
  · intro hp _
    have hne : ¬p ≤ 0 := not_le.mpr hp
    constructor
    · simp [calculate_order_quantity, hne]
    · simp only [calculate_order_quantity, hne, if_false]
      rw [Int.fdiv_eq_ediv _ hp.le]
      exact Int.ediv_mul_le c hp.ne'
  · intro hp
    simp [calculate_order_quantity, hp]

/-- C4 witness: at `p = 10000`, `c = 1000000` the sizer returns 100 and does
not over-allocate; at `p = 0` it returns 0. -/
theorem quantity_sizing_witness :
    ((0 : Int) < 10000 ∧ (0 : Int) < 1000000 ∧
      calculate_order_quantity 10000 1000000 = Int.fdiv 1000000 10000 ∧
        calculate_order_quantity 10000 1000000 * 10000 ≤ 1000000) ∧
    ((0 : Int) ≤ 0 ∧ calculate_order_quantity 0 1000000 = 0) :=
  ⟨⟨by decide, by decide, (quantity_sizing 10000 1000000).1 (by decide) (by decide)⟩,
    by decide, (quantity_sizing 0 1000000).2 (by decide)⟩

/-- C9: after `record_today_trading` writes the lock record,
`check_today_trading_done` on the same calendar day returns true, and on any
later day (whose key differs from the stored date) returns false. -/
theorem daily_lock_round_trip (today later code name : String)
    (price qty : Int) (buy_time : Option String) (hne : later ≠ today) :
    check_today_trading_done today
      (some (record_today_trading today code name price qty buy_time)) = true ∧
    check_today_trading_done later
      (some (record_today_trading today code name price qty buy_time)) = false := by
  constructor
  · simp [check_today_trading_done, record_today_trading]
  · simp [check_today_trading_done, record_today_trading]
    exact fun h => hne h.symm

/-- C9 witness: a trade recorded on 2026-10-12 blocks further buys that day
and not on 2026-10-13. -/
theorem daily_lock_round_trip_witness :
    "20261013" ≠ "20261012" ∧
    check_today_trading_done "20261012"
      (some (record_today_trading "20261012" "005930" "SEC" 10000 100 none)) = true ∧
    check_today_trading_done "20261013"
      (some (record_today_trading "20261012" "005930" "SEC" 10000 100 none)) = false :=
  ⟨by decide,
    daily_lock_round_trip "20261012" "20261013" "005930" "SEC" 10000 100 none (by decide)⟩

/-- C5: on any poll iteration whose broker responses yield a positive held
quantity and a positive remaining quantity, the classification is
`PARTIALLY_EXECUTED` with `executed_qty` the held quantity, a cancel is
issued for exactly the remaining quantity, and the outcome is the same
whatever the cancel result was. -/
theorem partial_fill_classification (order_no stock_code : String)
    (order_qty : Int) (outst : OutstandingResult) (bal : BalanceResult)
    (cs cs' : Bool)
    (hheld : 0 < (pollHeld stock_code bal).1)
    (hrem : 0 < pollRemainingQty order_no outst) :
    classifyBuyPoll order_no stock_code order_qty outst bal cs
      = .partlyExecuted (pollHeld stock_code bal).1
          (pollRemainingQty order_no outst) (pollHeld stock_code bal).2
          (pollRemainingQty order_no outst) ∧
    classifyBuyPoll order_no stock_code order_qty outst bal cs
      = classifyBuyPoll order_no stock_code order_qty outst bal cs' := by
  have hfull : ¬(pollRemainingQty order_no outst = 0 ∧
      order_qty ≤ (pollHeld stock_code bal).1) := by
    rintro ⟨h0, -⟩
    omega
  constructor
  · unfold classifyBuyPoll
    rw [if_neg hfull, if_pos ⟨hheld, hrem⟩]
  · unfold classifyBuyPoll
    rw [if_neg hfull, if_pos ⟨hheld, hrem⟩]

/-- C5 witness: order of 100 with broker-reported remaining 40 and held 60
classifies as `PARTIALLY_EXECUTED` with `executed_qty = 60` and a cancel for
40, for both cancel outcomes. -/
theorem partial_fill_classification_witness :
    (0 : Int) < 60 ∧ (0 : Int) < 40 ∧
    classifyBuyPoll "A1" "005930" 100
      { success := true, orders := [{ ord_no := "A1", rmndr_qty := 40 }] }
      { success := true,
        holdings := [{ stk_cd := "005930", buy_uv := 10010, rmnd_qty := 60 }] }
      true
      = .partlyExecuted 60 40 10010 40 ∧
    classifyBuyPoll "A1" "005930" 100
      { success := true, orders := [{ ord_no := "A1", rmndr_qty := 40 }] }
      { success := true,
        holdings := [{ stk_cd := "005930", buy_uv := 10010, rmnd_qty := 60 }] }
      true
      = classifyBuyPoll "A1" "005930" 100
          { success := true, orders := [{ ord_no := "A1", rmndr_qty := 40 }] }
          { success := true,
            holdings := [{ stk_cd := "005930", buy_uv := 10010, rmnd_qty := 60 }] }
          false :=
  ⟨by decide, by decide,
    partial_fill_classification "A1" "005930" 100
      { success := true, orders := [{ ord_no := "A1", rmndr_qty := 40 }] }
      { success := true,
        holdings := [{ stk_cd := "005930", buy_uv := 10010, rmnd_qty := 60 }] }
      true false (by decide) (by decide)⟩

/-- C8: when the order id is absent from the outstanding-orders list the
remaining quantity is treated as 0, and the poll classifies the order
`FULLY_EXECUTED` — returning the broker-reported held quantity and average
fill price — exactly when the (so-treated) remaining quantity is 0 and the
held quantity is at least the expected order quantity. -/
theorem fully_filled_classification (order_no stock_code : String)
    (order_qty : Int) (outst : OutstandingResult) (bal : BalanceResult)
    (cs : Bool) :
    (outst.orders.find? (fun o => o.ord_no == order_no) = none →
        pollRemainingQty order_no outst = 0) ∧
    (classifyBuyPoll order_no stock_code order_qty outst bal cs
        = .fullyExecuted (pollHeld stock_code bal).1 (pollHeld stock_code bal).2
      ↔ pollRemainingQty order_no outst = 0 ∧
          order_qty ≤ (pollHeld stock_code bal).1) := by
  constructor
  · intro habs
    unfold pollRemainingQty
    split
    · rw [habs]
    · rfl
  · unfold classifyBuyPoll
    by_cases hfull : pollRemainingQty order_no outst = 0 ∧
        order_qty ≤ (pollHeld stock_code bal).1
    · rw [if_pos hfull]
      simp [hfull]
    · rw [if_neg hfull]
      split
      · simp [hfull]
      · simp [hfull]

/-- C8 witness: with the order gone from the outstanding list and 100 shares
held against an expected 100, the poll returns `FULLY_EXECUTED` with the
broker's held quantity and average price. -/
theorem fully_filled_classification_witness :
    (({ success := true, orders := [] } : OutstandingResult).orders.find?
        (fun o => o.ord_no == "A1") = none →
      pollRemainingQty "A1" { success := true, orders := [] } = 0) ∧
    (classifyBuyPoll "A1" "005930" 100
        { success := true, orders := [] }
        { success := true,
          holdings := [{ stk_cd := "005930", buy_uv := 10010, rmnd_qty := 100 }] }
        true
      = .fullyExecuted 100 10010
      ↔ pollRemainingQty "A1" { success := true, orders := [] } = 0 ∧
          (100 : Int) ≤ 100) :=
  fully_filled_classification "A1" "005930" 100
    { success := true, orders := [] }
    { success := true,
      holdings := [{ stk_cd := "005930", buy_uv := 10010, rmnd_qty := 100 }] }
    true

/-- Whole-tick monotonicity of `is_verified`: no part of the tick path ever
clears it. -/
theorem on_price_update_verified_mono (cfg : Config) (st : TradingState)
    (sc : String) (cp : Int) (ns : ℚ) (ntm : Nat) (env : TickEnv)
    (h : st.buy_info.is_verified = true) :
    (on_price_update cfg st sc cp ns ntm env).1.buy_info.is_verified = true := by
  have h1 := lazyVerifyStep_verified_mono cfg st sc env.lazy_balance h
  have h2 : (balanceRefreshStep cfg (lazyVerifyStep cfg st sc env.lazy_balance).1
      sc ns env.refresh_balance).1.buy_info.is_verified = true := by
    rw [balanceRefreshStep_verified]; exact h1
  unfold on_price_update
  split
  · exact h
  · dsimp only
    split
    · exact h1
    · split
      · rw [execute_daily_force_sell_buy_info]; exact h2
      · rw [execute_stop_loss_buy_info]; exact h2
      · rw [execute_auto_sell_buy_info]; exact h2
      · exact h2

/-- C1: on a tick where the forced-liquidation time has passed, the
stop-loss threshold is crossed and the profit target is met, all while
`sell_executed` is false, the per-tick cascade short-circuits at its first
branch: the decision is forced liquidation alone. -/
theorem exit_priority_ordering (cfg : Config) (st : TradingState)
    (current_price : Int) (now_sec : ℚ) (now_tod_min : Nat)
    (hforce_on : cfg.enable_daily_force_sell = true)
    (hforce_time : is_force_sell_time now_tod_min cfg.daily_force_sell_tod_min = true)
    (hstop_on : cfg.enable_stop_loss = true)
    (hstop_cross : profitRate current_price st.buy_info.buy_price ≤ cfg.stop_loss_rate)
    (htarget : st.buy_info.target_profit_rate ≤ profitRate current_price st.buy_info.buy_price)
    (hflag : st.sell_executed = false) :
    evaluateExit cfg st current_price now_sec now_tod_min = .forceLiquidate := by
  unfold evaluateExit
  simp [hforce_on, hforce_time, hflag]

/-- C1 witness: all three exit conditions hold simultaneously on a concrete
tick and the decision is forced liquidation. -/
theorem exit_priority_ordering_witness :
    evaluateExit (⟨false, 0, true, 920, true, 1/50, 0, true⟩ : Config)
      (⟨⟨"005930", "SEC", 10000, 100, some 0, 1/100, true⟩, false, none, none⟩ :
        TradingState)
      10150 3600 930 = .forceLiquidate :=
  exit_priority_ordering _ _ 10150 3600 930 (by decide) (by decide) (by decide)
    (by norm_num [profitRate]) (by norm_num [profitRate]) (by decide)

/-- C2: with a recorded entry time and a positive stop-loss delay, on a tick
whose profit rate crosses the stop-loss threshold (and on which the
forced-liquidation branch does not apply), no action is taken while the
elapsed time since entry is under the delay, and the stop-loss fires once the
elapsed time reaches the delay. -/
theorem stop_loss_delay_gate (cfg : Config) (st : TradingState)
    (current_price : Int) (now_sec : ℚ) (now_tod_min : Nat) (t : ℚ)
    (hbuy_time : st.buy_info.buy_time = some t)
    (hdelay : 0 < cfg.stop_loss_delay_minutes)
    (hno_force : (cfg.enable_daily_force_sell
        && is_force_sell_time now_tod_min cfg.daily_force_sell_tod_min) = false)
    (hstop_on : cfg.enable_stop_loss = true)
    (hstop_cross : profitRate current_price st.buy_info.buy_price ≤ cfg.stop_loss_rate)
    (hflag : st.sell_executed = false) :
    ((now_sec - t) / 60 < (cfg.stop_loss_delay_minutes : ℚ) →
        evaluateExit cfg st current_price now_sec now_tod_min = .none) ∧
    ((cfg.stop_loss_delay_minutes : ℚ) ≤ (now_sec - t) / 60 →
        evaluateExit cfg st current_price now_sec now_tod_min = .stopLoss) := by
  constructor
  · intro hlt
    unfold evaluateExit stopLossDelayActive
    simp [hno_force, hstop_on, hstop_cross, hflag, hbuy_time, hdelay, hlt]
  · intro hge
    unfold evaluateExit stopLossDelayActive
    simp [hno_force, hstop_on, hstop_cross, hflag, hbuy_time, hdelay,
      not_lt.mpr hge]

/-- C2 witness: `stop_loss_delay_minutes = 1`, entry at `T = 0`; a
threshold-crossing tick 30 seconds later takes no action and a tick 61
seconds later with the same price fires the stop-loss. -/
theorem stop_loss_delay_gate_witness :
    evaluateExit (⟨false, 0, false, 920, true, -(1/40), 1, true⟩ : Config)
      (⟨⟨"005930", "SEC", 10000, 100, some 0, 1/100, true⟩, false, none, none⟩ :
        TradingState)
      9740 30 600 = .none ∧
    evaluateExit (⟨false, 0, false, 920, true, -(1/40), 1, true⟩ : Config)
      (⟨⟨"005930", "SEC", 10000, 100, some 0, 1/100, true⟩, false, none, none⟩ :
        TradingState)
      9740 61 600 = .stopLoss :=
  ⟨(stop_loss_delay_gate _ _ 9740 30 600 0 rfl (by decide) (by decide) (by decide)
      (by norm_num [profitRate]) (by decide)).1 (by norm_num),
    (stop_loss_delay_gate _ _ 9740 61 600 0 rfl (by decide) (by decide) (by decide)
      (by norm_num [profitRate]) (by decide)).2 (by norm_num)⟩

/-- C6: when the profit rate meets the target and no sell has been placed
(on a tick where neither higher-priority exit applies, the position is
verified, the periodic refresh is disabled and the cached quantity is
positive), the take-profit exit places a limit sell at the current tick price
minus one tick of the price-band step function.  The sell price is computed
by `OrderExecutor.calculate_sell_price` from the cached buy price and the
exact tick profit rate, which coincides with `current_price - tick`. -/
theorem take_profit_sell_price (cfg : Config) (st : TradingState)
    (stock_code : String) (current_price : Int) (now_sec : ℚ)
    (now_tod_min : Nat) (env : TickEnv)
    (hver : st.buy_info.is_verified = true)
    (hinterval : cfg.balance_check_interval = 0)
    (hcp : 0 < current_price)
    (hbp : 0 < st.buy_info.buy_price)
    (hq : 0 < st.buy_info.quantity)
    (hflag : st.sell_executed = false)
    (hno_force : (cfg.enable_daily_force_sell
        && is_force_sell_time now_tod_min cfg.daily_force_sell_tod_min) = false)
    (hno_stop : (cfg.enable_stop_loss
        && decide (profitRate current_price st.buy_info.buy_price
            ≤ cfg.stop_loss_rate)) = false)
    (htarget : st.buy_info.target_profit_rate
        ≤ profitRate current_price st.buy_info.buy_price) :
    ∃ rest, (on_price_update cfg st stock_code current_price now_sec
        now_tod_min env).2
      = .setFlag true
        :: .sellLimit st.buy_info.quantity
            (current_price - get_tick_size current_price)
        :: rest := by
  have hlazy : lazyVerifyStep cfg st stock_code env.lazy_balance = (st, []) := by
    unfold lazyVerifyStep
    simp [hver]
  have hrefresh : balanceRefreshStep cfg st stock_code now_sec
      env.refresh_balance = (st, []) := by
    unfold balanceRefreshStep
    simp [hinterval]
  have heval : evaluateExit cfg st current_price now_sec now_tod_min
      = .takeProfit := by
    unfold evaluateExit
    simp [hno_force, hno_stop, hflag, htarget]
  have hprice : oe_calculate_sell_price st.buy_info.buy_price
      (profitRate current_price st.buy_info.buy_price)
      = current_price - get_tick_size current_price := by
    rw [oe_sell_price_eq_current current_price st.buy_info.buy_price hbp]
    rfl
  unfold on_price_update
  rw [if_neg (not_le.mpr hcp)]
  dsimp only
  rw [hlazy]
  dsimp only
  rw [if_neg (not_le.mpr hbp), hrefresh, heval]
  unfold execute_auto_sell
  rw [if_neg (by rw [hflag]; exact Bool.false_ne_true),
    if_neg (not_le.mpr hq), hprice]
  dsimp only
  cases henv : env.sell_env.sell_result with
  | none => exact ⟨_, rfl⟩
  | some r =>
      dsimp only
      by_cases hr : r.success = true
      · rw [if_pos hr]
        by_cases hex : env.sell_env.is_executed = true
        · rw [if_pos hex]
          exact ⟨_, rfl⟩
        · rw [if_neg hex]
          exact ⟨_, rfl⟩
      · rw [if_neg hr]
        exact ⟨_, rfl⟩

/-- C6 witness: entry price 10,000, target rate 0.01, tick price 10,101
(profit rate 0.0101): the take-profit fires and the limit sell is placed at
10,101 − 50 = 10,051. -/
theorem take_profit_sell_price_witness :
    ∃ rest, (on_price_update (⟨false, 0, false, 920, false, -(1/40), 0, true⟩ : Config)
      (⟨⟨"005930", "SEC", 10000, 100, some 0, 1/100, true⟩, false, none, none⟩ :
        TradingState)
      "005930" 10101 30 600
      (⟨none, none, ⟨some ⟨true, "7001"⟩, true, true⟩, ⟨⟨true, []⟩, none⟩⟩ :
        TickEnv)).2
      = .setFlag true :: .sellLimit 100 10051 :: rest :=
  take_profit_sell_price _ _ "005930" 10101 30 600 _ (by decide) (by decide)
    (by decide) (by decide) (by decide) (by decide) (by decide)
    (by norm_num [profitRate]) (by norm_num [profitRate])

/-- C3 (amended): every exit path sets `sell_executed` before invoking the
broker sell call, but only the take-profit path rolls it back (exactly on an
exception or an explicit failure of the placement, keeping it set on a
confirmed fill); the stop-loss and forced-liquidation paths never reset the
flag, even when their broker call raises or reports failure. -/
theorem sell_flag_rollback (cfg : Config) (st : TradingState) (pr : ℚ)
    (env : SellEnv) (fenv : ForceEnv)
    (hflag : st.sell_executed = false) (hq : 0 < st.buy_info.quantity) :
    ((execute_auto_sell cfg st pr env).2.take 2
        = [.setFlag true, .sellLimit st.buy_info.quantity
            (oe_calculate_sell_price st.buy_info.buy_price pr)]) ∧
    ((execute_stop_loss st env).2
        = [.setFlag true, .sellMarket st.buy_info.quantity]) ∧
    ((execute_daily_force_sell st fenv).2.head? = some (.setFlag true)) ∧
    (env.sell_result = none →
        (execute_auto_sell cfg st pr env).1.sell_executed = false) ∧
    (∀ r, env.sell_result = some r → r.success = false →
        (execute_auto_sell cfg st pr env).1.sell_executed = false) ∧
    (∀ r, env.sell_result = some r → r.success = true → env.is_executed = true →
        (execute_auto_sell cfg st pr env).1.sell_executed = true) ∧
    ((execute_stop_loss st env).1.sell_executed = true) ∧
    ((execute_daily_force_sell st fenv).1.sell_executed = true) := by
  have hbf : ¬st.sell_executed = true := by rw [hflag]; exact Bool.false_ne_true
  have hqq : ¬st.buy_info.quantity ≤ 0 := not_le.mpr hq
  refine ⟨?_, ?_, ?_, ?_, ?_, ?_, ?_, ?_⟩
  · unfold execute_auto_sell
    rw [if_neg hbf, if_neg hqq]
    cases env.sell_result with
    | none => rfl
    | some r =>
        dsimp only
        by_cases hr : r.success = true
        · rw [if_pos hr]
          by_cases hx : env.is_executed = true
          · rw [if_pos hx]; rfl
          · rw [if_neg hx]; rfl
        · rw [if_neg hr]; rfl
  · unfold execute_stop_loss
    rw [if_neg hbf, if_neg hqq]
    cases env.sell_result <;> rfl
  · unfold execute_daily_force_sell
    rw [if_neg hbf]
    rfl
  · intro hnone
    unfold execute_auto_sell
    rw [if_neg hbf, if_neg hqq, hnone]
  · intro r hr hfail
    unfold execute_auto_sell
    rw [if_neg hbf, if_neg hqq, hr]
    dsimp only
    rw [if_neg (by rw [hfail]; exact Bool.false_ne_true)]
  · intro r hr hsucc hx
    unfold execute_auto_sell
    rw [if_neg hbf, if_neg hqq, hr]
    dsimp only
    rw [if_pos hsucc, if_pos hx]
  · unfold execute_stop_loss
    rw [if_neg hbf, if_neg hqq]
    cases env.sell_result <;> rfl
  · unfold execute_daily_force_sell
    rw [if_neg hbf]

/-- C3 counterexample: with a live 100-share position and a stop-loss broker
call that explicitly reports failure, `execute_stop_loss` leaves
`sell_executed` set — the claimed rollback to `false` on an explicit failure
does not happen on the stop-loss exit path. -/
theorem sell_flag_rollback_cex :
    ¬ ((execute_stop_loss
        (⟨⟨"005930", "SEC", 10000, 100, some 0, 1/100, true⟩, false, none, none⟩ :
          TradingState)
        (⟨some ⟨false, "7002"⟩, false, false⟩ : SellEnv)).1.sell_executed
      = false) := by decide

/-- C3 witness: at a concrete live position, the stop-loss trace sets the
flag before its market sell, the flag stays set after its failing call, while
the take-profit path rolls the flag back on its failing call. -/
theorem sell_flag_rollback_witness :
    ((execute_stop_loss
        (⟨⟨"005930", "SEC", 10000, 100, some 0, 1/100, true⟩, false, none, none⟩ :
          TradingState)
        (⟨some ⟨false, "7002"⟩, false, false⟩ : SellEnv)).2
      = [.setFlag true, .sellMarket 100]) ∧
    ((execute_stop_loss
        (⟨⟨"005930", "SEC", 10000, 100, some 0, 1/100, true⟩, false, none, none⟩ :
          TradingState)
        (⟨some ⟨false, "7002"⟩, false, false⟩ : SellEnv)).1.sell_executed = true) ∧
    ((execute_auto_sell (⟨false, 0, false, 920, false, -(1/40), 0, true⟩ : Config)
        (⟨⟨"005930", "SEC", 10000, 100, some 0, 1/100, true⟩, false, none, none⟩ :
          TradingState)
        (1/100)
        (⟨some ⟨false, "7002"⟩, false, false⟩ : SellEnv)).1.sell_executed = false) :=
  ⟨(sell_flag_rollback (⟨false, 0, false, 920, false, -(1/40), 0, true⟩ : Config)
      (⟨⟨"005930", "SEC", 10000, 100, some 0, 1/100, true⟩, false, none, none⟩ :
        TradingState)
      (1/100) (⟨some ⟨false, "7002"⟩, false, false⟩ : SellEnv)
      (⟨⟨true, []⟩, none⟩ : ForceEnv) (by decide) (by decide)).2.1,
    (sell_flag_rollback (⟨false, 0, false, 920, false, -(1/40), 0, true⟩ : Config)
      (⟨⟨"005930", "SEC", 10000, 100, some 0, 1/100, true⟩, false, none, none⟩ :
        TradingState)
      (1/100) (⟨some ⟨false, "7002"⟩, false, false⟩ : SellEnv)
      (⟨⟨true, []⟩, none⟩ : ForceEnv) (by decide) (by decide)).2.2.2.2.2.2.1,
    (sell_flag_rollback (⟨false, 0, false, 920, false, -(1/40), 0, true⟩ : Config)
      (⟨⟨"005930", "SEC", 10000, 100, some 0, 1/100, true⟩, false, none, none⟩ :
        TradingState)
      (1/100) (⟨some ⟨false, "7002"⟩, false, false⟩ : SellEnv)
      (⟨⟨true, []⟩, none⟩ : ForceEnv) (by decide)
      (by decide)).2.2.2.2.1 ⟨false, "7002"⟩ rfl rfl⟩

/-- C7 (amended): on an unverified position the tick performs the one
holdings lookup; it overwrites the cached entry price and quantity and sets
`is_verified` when the symbol is found with positive reported values, and
sets `is_verified` while keeping the estimates when the lookup raises, the
query fails, or the symbol is absent; but when the symbol is found with a
non-positive reported price or quantity nothing is set and the lookup is
retried on the next tick.  `is_verified` never reverts from true to false
across a whole tick. -/
theorem lazy_verification_semantics (cfg : Config) (st : TradingState)
    (stock_code : String) (bal : Option BalanceResult)
    (hlazy : cfg.enable_lazy_verification = true)
    (hunver : st.buy_info.is_verified = false) :
    (bal = none → lazyVerifyStep cfg st stock_code bal
        = (setVerified st, [.balanceQuery])) ∧
    (∀ b, bal = some b → b.success = false →
        lazyVerifyStep cfg st stock_code bal
          = (setVerified st, [.balanceQuery])) ∧
    (∀ b, bal = some b → b.success = true →
        findHolding stock_code b.holdings = none →
        lazyVerifyStep cfg st stock_code bal
          = (setVerified st, [.balanceQuery])) ∧
    (∀ b h, bal = some b → b.success = true →
        findHolding stock_code b.holdings = some h →
        0 < h.buy_uv → 0 < h.rmnd_qty →
        lazyVerifyStep cfg st stock_code bal
          = ({ st with buy_info := { st.buy_info with
                buy_price := h.buy_uv, quantity := h.rmnd_qty,
                is_verified := true } }, [.balanceQuery])) ∧
    (∀ b h, bal = some b → b.success = true →
        findHolding stock_code b.holdings = some h →
        ¬(0 < h.buy_uv ∧ 0 < h.rmnd_qty) →
        lazyVerifyStep cfg st stock_code bal = (st, [.balanceQuery])) ∧
    (∀ (cfg' : Config) (st' : TradingState) sc cp ns ntm env,
        st'.buy_info.is_verified = true →
        (on_price_update cfg' st' sc cp ns ntm env).1.buy_info.is_verified
          = true) := by
  have hguard : (cfg.enable_lazy_verification && !st.buy_info.is_verified) = true := by
    rw [hlazy, hunver]; rfl
  refine ⟨?_, ?_, ?_, ?_, ?_, ?_⟩
  · intro hnone
    unfold lazyVerifyStep
    rw [if_pos hguard, hnone]
  · intro b hb hfail
    unfold lazyVerifyStep
    rw [if_pos hguard, hb]
    dsimp only
    rw [if_neg (by rw [hfail]; exact Bool.false_ne_true)]
  · intro b hb hsucc habs
    unfold lazyVerifyStep
    rw [if_pos hguard, hb]
    dsimp only
    rw [if_pos hsucc, habs]
  · intro b h hb hsucc hfound hbuy hqty
    unfold lazyVerifyStep
    rw [if_pos hguard, hb]
    dsimp only
    rw [if_pos hsucc, hfound]
    dsimp only
    rw [if_pos ⟨hbuy, hqty⟩]
  · intro b h hb hsucc hfound hneg
    unfold lazyVerifyStep
    rw [if_pos hguard, hb]
    dsimp only
    rw [if_pos hsucc, hfound]
    dsimp only
    rw [if_neg hneg]
  · intro cfg' st' sc cp ns ntm env h
    exact on_price_update_verified_mono cfg' st' sc cp ns ntm env h

/-- C7 counterexample: with lazy verification enabled and an unverified
position, a successful balance response that lists the symbol with a
reported average price of 0 leaves `is_verified` false — contrary to the
claim that the first tick always sets it to true (here the lookup is
re-attempted on the next tick). -/
theorem lazy_verification_cex :
    ¬ ((lazyVerifyStep (⟨true, 0, false, 920, false, -(1/40), 0, true⟩ : Config)
        (⟨⟨"005930", "SEC", 10000, 100, some 0, 1/100, false⟩, false, none, none⟩ :
          TradingState)
        "005930"
        (some ⟨true, [⟨"005930", 0, 5⟩]⟩)).1.buy_info.is_verified = true) := by
  decide

/-- C7 witness: on a concrete unverified position the lookup result with the
symbol held at average price 10,010 and 100 shares overwrites the estimates
and verifies; a failing lookup verifies while keeping the estimates. -/
theorem lazy_verification_semantics_witness :
    (lazyVerifyStep (⟨true, 0, false, 920, false, -(1/40), 0, true⟩ : Config)
      (⟨⟨"005930", "SEC", 10000, 100, some 0, 1/100, false⟩, false, none, none⟩ :
        TradingState)
      "005930" (some ⟨true, [⟨"005930", 10010, 100⟩]⟩)
      = (⟨⟨"005930", "SEC", 10010, 100, some 0, 1/100, true⟩, false, none, none⟩,
        [.balanceQuery])) ∧
    (lazyVerifyStep (⟨true, 0, false, 920, false, -(1/40), 0, true⟩ : Config)
      (⟨⟨"005930", "SEC", 10000, 100, some 0, 1/100, false⟩, false, none, none⟩ :
        TradingState)
      "005930" (some ⟨false, []⟩)
      = (⟨⟨"005930", "SEC", 10000, 100, some 0, 1/100, true⟩, false, none, none⟩,
        [.balanceQuery])) :=
  ⟨(lazy_verification_semantics
      (⟨true, 0, false, 920, false, -(1/40), 0, true⟩ : Config)
      (⟨⟨"005930", "SEC", 10000, 100, some 0, 1/100, false⟩, false, none, none⟩ :
        TradingState)
      "005930" (some ⟨true, [⟨"005930", 10010, 100⟩]⟩) (by decide)
      (by decide)).2.2.2.1
      ⟨true, [⟨"005930", 10010, 100⟩]⟩ ⟨"005930", 10010, 100⟩ rfl rfl (by decide)
      (by decide) (by decide),
    (lazy_verification_semantics
      (⟨true, 0, false, 920, false, -(1/40), 0, true⟩ : Config)
      (⟨⟨"005930", "SEC", 10000, 100, some 0, 1/100, false⟩, false, none, none⟩ :
        TradingState)
      "005930" (some ⟨false, []⟩) (by decide) (by decide)).2.1
      ⟨false, []⟩ rfl rfl⟩

/-- C10: when an exit fires with a non-positive tracked quantity, the
take-profit and stop-loss handlers set `sell_executed` and return without
any broker order and without resetting the flag; from then on, any sequence
of further ticks keeps the flag set and never places a sell order through
any exit path. -/
theorem zero_quantity_exit_lock (cfg : Config) (st : TradingState) (pr : ℚ)
    (env : SellEnv) (ticks : List TickIn)
    (hflag : st.sell_executed = false) (hq : st.buy_info.quantity ≤ 0) :
    execute_auto_sell cfg st pr env
      = ({ st with sell_executed := true }, [.setFlag true]) ∧
    execute_stop_loss st env
      = ({ st with sell_executed := true }, [.setFlag true]) ∧
    (runTicks cfg { st with sell_executed := true } ticks).1.sell_executed
      = true ∧
    ∀ e ∈ (runTicks cfg { st with sell_executed := true } ticks).2,
      e.isSellOrder = false := by
  have hbf : ¬st.sell_executed = true := by rw [hflag]; exact Bool.false_ne_true
  refine ⟨?_, ?_, ?_, ?_⟩
  · unfold execute_auto_sell
    rw [if_neg hbf, if_pos hq]
  · unfold execute_stop_loss
    rw [if_neg hbf, if_pos hq]
  · exact (runTicks_locked cfg ticks _ rfl).1
  · exact (runTicks_locked cfg ticks _ rfl).2

/-- C10 witness: a concrete zero-quantity position: the stop-loss handler
only sets the flag, and a subsequent profitable tick emits no sell order. -/
theorem zero_quantity_exit_lock_witness :
    (execute_stop_loss
        (⟨⟨"005930", "SEC", 10000, 0, some 0, 1/100, true⟩, false, none, none⟩ :
          TradingState)
        (⟨some ⟨true, "7003"⟩, true, true⟩ : SellEnv)
      = (⟨⟨"005930", "SEC", 10000, 0, some 0, 1/100, true⟩, true, none, none⟩,
        [.setFlag true])) ∧
    ((runTicks (⟨false, 0, false, 920, false, -(1/40), 0, true⟩ : Config)
        (⟨⟨"005930", "SEC", 10000, 0, some 0, 1/100, true⟩, true, none, none⟩ :
          TradingState)
        [⟨"005930", 10101, 30, 600,
          ⟨none, none, ⟨some ⟨true, "7004"⟩, true, true⟩, ⟨⟨true, []⟩, none⟩⟩⟩]).1.sell_executed
      = true) ∧
    ∀ e ∈ (runTicks (⟨false, 0, false, 920, false, -(1/40), 0, true⟩ : Config)
        (⟨⟨"005930", "SEC", 10000, 0, some 0, 1/100, true⟩, true, none, none⟩ :
          TradingState)
        [⟨"005930", 10101, 30, 600,
          ⟨none, none, ⟨some ⟨true, "7004"⟩, true, true⟩, ⟨⟨true, []⟩, none⟩⟩⟩]).2,
      e.isSellOrder = false :=
  ⟨(zero_quantity_exit_lock (⟨false, 0, false, 920, false, -(1/40), 0, true⟩ : Config)
      (⟨⟨"005930", "SEC", 10000, 0, some 0, 1/100, true⟩, false, none, none⟩ :
        TradingState)
      (1/100) (⟨some ⟨true, "7003"⟩, true, true⟩ : SellEnv)
      [⟨"005930", 10101, 30, 600,
        ⟨none, none, ⟨some ⟨true, "7004"⟩, true, true⟩, ⟨⟨true, []⟩, none⟩⟩⟩]
      (by decide) (by decide)).2.1,
    (zero_quantity_exit_lock (⟨false, 0, false, 920, false, -(1/40), 0, true⟩ : Config)
      (⟨⟨"005930", "SEC", 10000, 0, some 0, 1/100, true⟩, false, none, none⟩ :
        TradingState)
      (1/100) (⟨some ⟨true, "7003"⟩, true, true⟩ : SellEnv)
      [⟨"005930", 10101, 30, 600,
        ⟨none, none, ⟨some ⟨true, "7004"⟩, true, true⟩, ⟨⟨true, []⟩, none⟩⟩⟩]
      (by decide) (by decide)).2.2.1,
    (zero_quantity_exit_lock (⟨false, 0, false, 920, false, -(1/40), 0, true⟩ : Config)
      (⟨⟨"005930", "SEC", 10000, 0, some 0, 1/100, true⟩, false, none, none⟩ :
        TradingState)
      (1/100) (⟨some ⟨true, "7003"⟩, true, true⟩ : SellEnv)
      [⟨"005930", 10101, 30, 600,
        ⟨none, none, ⟨some ⟨true, "7004"⟩, true, true⟩, ⟨⟨true, []⟩, none⟩⟩⟩]
      (by decide) (by decide)).2.2.2⟩

end KiwoomTrading
